import Mathlib

/-!
Shallow embedding of the simsbuddy voice-agent control plane, covering
`backend/common/services/credit_service.py` (per-minute credit billing) and
`backend/orchestrator/main.py` (session controller: cleanup, end-session,
heartbeat, LiveKit webhook, start-session).

The relational database rows and the Redis keys the code manipulates are
modelled as explicit state records; every operation is a pure function from
state to (result, state).  Exceptions raised inside the billing transaction
are modelled by an injected `txFails` flag: when it is set, the transaction
rolls back (the state is returned unchanged) and the idempotency marker is
not written, exactly as in the `except` branch of `deduct_minute`.
-/

namespace SimsBuddy

/-- Result enum of `CreditService.deduct_minute` (`CreditDeductionResult`). -/
inductive CreditDeductionResult
  | success
  | insufficientCredits
  | alreadyBilled
  | sessionNotFound
  | studentNotFound
  | error
deriving DecidableEq, Repr

/-- A row of the external `students` table: `id`, `credit_balance`. -/
structure Student where
  id : String
  creditBalance : Int
deriving DecidableEq, Repr

/-- A row of `simulation_attempts`: correlation token, student id, minutes billed. -/
structure SimulationAttempt where
  correlationToken : String
  studentId : String
  minutesBilled : Int
deriving DecidableEq, Repr

/-- A row of the append-only `credit_transactions` audit table. -/
structure CreditTransaction where
  studentId : String
  transactionType : String
  amount : Int
  balanceAfter : Int
  sourceType : String
  sourceId : String
  description : String
deriving DecidableEq, Repr

/-- The state `CreditService` reads and writes: the three database tables plus
the Redis idempotency keys (stored as the literal key strings). -/
structure CreditState where
  students : List Student
  attempts : List SimulationAttempt
  transactions : List CreditTransaction
  markers : List String
deriving DecidableEq, Repr

/-- The Redis idempotency key `credit:billed:<sessionId>:<minuteNumber>`. -/
def idempotencyKey (sessionId : String) (minuteNumber : Int) : String :=
  "credit:billed:" ++ sessionId ++ ":" ++ toString minuteNumber

/-- The `description` column written by `deduct_minute` for a given minute. -/
def minuteDescription (minuteNumber : Int) : String :=
  "Voice simulation - minute " ++ toString minuteNumber

/-- `CreditService.get_student_id_from_session`: look up
`simulation_attempts.student_id` by correlation token.  The Python truthiness
check `if not student_id` also rejects an empty string. -/
def getStudentIdFromSession (st : CreditState) (sessionId : String) : Option String :=
  match st.attempts.find? (fun a => a.correlationToken = sessionId) with
  | none => none
  | some a => if a.studentId = "" then none else some a.studentId

/-- `CreditService.check_sufficient_credits`: `credit_balance >= required`;
`False` when the student row is missing. -/
def checkSufficientCredits (st : CreditState) (studentId : String)
    (requiredCredits : Int) : Bool :=
  match st.students.find? (fun s => s.id = studentId) with
  | none => false
  | some s => requiredCredits ≤ s.creditBalance

/-- The observable part of the dict returned by `deduct_minute`. -/
structure DeductOutcome where
  result : CreditDeductionResult
  balanceAfter : Option Int
deriving DecidableEq, Repr

/-- The state after a committed `deduct_minute` transaction: balance written
back, `credit_transactions` row appended, `minutes_billed` overwritten with
the current minute, and the idempotency marker set (after commit). -/
def deductSuccessState (st : CreditState) (sessionId : String)
    (minuteNumber : Int) (studentId : String) (newBalance : Int) : CreditState :=
  { students := st.students.map (fun s =>
      if s.id = studentId then { s with creditBalance := newBalance } else s)
    attempts := st.attempts.map (fun a =>
      if a.correlationToken = sessionId then { a with minutesBilled := minuteNumber } else a)
    transactions := st.transactions ++
      [⟨studentId, "DEBIT", 1, newBalance, "SIMULATION", sessionId,
        minuteDescription minuteNumber⟩]
    markers := idempotencyKey sessionId minuteNumber :: st.markers }

/-- `CreditService.deduct_minute`.  Steps, in source order: idempotency-marker
check, student lookup, row lock + balance read, insufficiency check, balance
decrement, `credit_transactions` insert, unconditional
`simulation_attempts.minutes_billed` update, and - only after the transaction
commits - the marker write.  `txFails` injects an exception inside the
transaction: the transaction rolls back and the marker is not set. -/
def deductMinute (st : CreditState) (sessionId : String) (minuteNumber : Int)
    (txFails : Bool) : DeductOutcome × CreditState :=
  if idempotencyKey sessionId minuteNumber ∈ st.markers then
    (⟨.alreadyBilled, none⟩, st)
  else
    match getStudentIdFromSession st sessionId with
    | none => (⟨.sessionNotFound, none⟩, st)
    | some studentId =>
      match st.students.find? (fun s => s.id = studentId) with
      | none => (⟨.studentNotFound, none⟩, st)
      | some studentRow =>
        if studentRow.creditBalance < 1 then
          (⟨.insufficientCredits, none⟩, st)
        else if txFails then
          (⟨.error, none⟩, st)
        else
          (⟨.success, some (studentRow.creditBalance - 1)⟩,
            deductSuccessState st sessionId minuteNumber studentId
              (studentRow.creditBalance - 1))

/-- Helper for `pyRange`: the `k` consecutive integers starting at `a`. -/
def pyRangeAux (a : Int) : Nat → List Int
  | 0 => []
  | k + 1 => a :: pyRangeAux (a + 1) k

/-- Python `range(a, b)` over integers: `a, a + 1, ..., b - 1`. -/
def pyRange (a b : Int) : List Int :=
  pyRangeAux a (b - a).toNat

/-- Observable fields of the dict returned by `reconcile_session`. -/
structure ReconcileOutcome where
  success : Bool
  found : Bool
  minutesBilledNow : Nat
  totalBilled : Int
  failedMinutes : List Int
deriving DecidableEq, Repr

/-- The `for minute in range(last_billed + 1, total_minutes + 1)` loop of
`reconcile_session`: `success`/`already_billed` advance the counter,
`insufficient_credits` appends the minute and breaks, any other result appends
the minute and continues.  No exception is injected into the inner
`deduct_minute` calls. -/
def reconcileLoop (sessionId : String) :
    CreditState → List Int → Nat × List Int × CreditState
  | st, [] => (0, [], st)
  | st, minute :: rest =>
    let step := deductMinute st sessionId minute false
    if step.1.result = .success ∨ step.1.result = .alreadyBilled then
      let tail := reconcileLoop sessionId step.2 rest
      (tail.1 + 1, tail.2.1, tail.2.2)
    else if step.1.result = .insufficientCredits then
      (0, [minute], step.2)
    else
      let tail := reconcileLoop sessionId step.2 rest
      (tail.1, minute :: tail.2.1, tail.2.2)

/-- `CreditService.reconcile_session`: read `minutes_billed`, bill every minute
in `range(last_billed + 1, total_minutes + 1)` through the loop above;
`success` iff `failed_minutes` is empty. -/
def reconcileSession (st : CreditState) (sessionId : String)
    (totalMinutes : Int) : ReconcileOutcome × CreditState :=
  match st.attempts.find? (fun a => a.correlationToken = sessionId) with
  | none => (⟨false, false, 0, 0, []⟩, st)
  | some row =>
    let lastBilled := row.minutesBilled
    let run := reconcileLoop sessionId st (pyRange (lastBilled + 1) (totalMinutes + 1))
    (⟨run.2.1.isEmpty, true, run.1, lastBilled + (run.1 : Int), run.2.1⟩, run.2.2)

/-- A sequence of `deduct_minute` calls, each `(sessionId, minuteNumber, txFails)`. -/
def runDeducts (st : CreditState) : List (String × Int × Bool) → CreditState
  | [] => st
  | c :: rest => runDeducts (deductMinute st c.1 c.2.1 c.2.2).2 rest

/-- Does a `credit_transactions` row record a debit of session `s`, minute `n`? -/
def txMatches (s : String) (n : Int) (t : CreditTransaction) : Bool :=
  t.sourceId = s ∧ t.description = minuteDescription n

/-- Number of `credit_transactions` rows for `(sessionId, minuteNumber)`. -/
def txRowCount (st : CreditState) (s : String) (n : Int) : Nat :=
  (st.transactions.filter (txMatches s n)).length

/-- `simulation_attempts.minutes_billed` for a session, as the code reads it. -/
def attemptMinutesBilled (st : CreditState) (sessionId : String) : Option Int :=
  (st.attempts.find? (fun a => a.correlationToken = sessionId)).map
    (fun a => a.minutesBilled)

/-- The reconciliation loop's standing assumption: the session has a
`simulation_attempts` row pointing at student `sid`, and the `students` row for
`sid` exists.  `deduct_minute` never deletes either row, so this is an
invariant of the loop. -/
def billingInv (st : CreditState) (s sid : String) : Prop :=
  (∃ row, st.attempts.find? (fun a => a.correlationToken = s) = some row ∧
    row.studentId = sid) ∧
  ¬ sid = "" ∧ (st.students.find? (fun x => x.id = sid)).isSome

/-! ## Orchestrator (`backend/orchestrator/main.py`) -/

/-- Fields of the `session:<id>` Redis hash that the orchestrator reads. -/
structure SessionData where
  userName : String
  voiceId : String
  openingLine : String
  systemPrompt : String
  celeryTaskId : Option String
  status : String
  startTime : Nat
  conversationStartTime : Option Nat
  conversationDuration : Option Nat
  conversationDurationMinutes : Option Nat
  agentPid : Option Nat
  agentPgid : Option Nat
  userId : Option String
deriving DecidableEq, Repr

/-- Fields of the `session:<id>:config` Redis hash written by `start_session`
(`openingLine` / `systemPrompt` are stored only when truthy). -/
structure SessionConfig where
  voiceId : String
  userName : String
  openingLine : Option String
  systemPrompt : Option String
  updatedAt : Nat
deriving DecidableEq, Repr

/-- The orchestrator-visible Redis keyspace plus the billing database state.
`agentLogsKeys` / `agentHealthKeys` record which session ids currently have an
`agent:<id>:logs` / `agent:<id>:health` key; `agentLogfileKeys` likewise for
`agent:<id>:logfile` (written by the spawner, `tasks.py`). -/
structure OrchState where
  credit : CreditState
  sessions : List (String × SessionData)
  configs : List (String × SessionConfig)
  agentPidKeys : List (String × Nat)
  agentLogfileKeys : List (String × String)
  agentLogsKeys : List String
  agentHealthKeys : List String
  userKeys : List (String × String)
  readySet : List String
  startingSet : List String
deriving DecidableEq, Repr

/-- First-match association-list lookup (Redis key read). -/
def kvLookup {α : Type} (l : List (String × α)) (k : String) : Option α :=
  (l.find? (fun p => p.1 = k)).map (fun p => p.2)

/-- Redis key write: replaces any previous value under the key. -/
def kvSet {α : Type} (l : List (String × α)) (k : String) (v : α) :
    List (String × α) :=
  (k, v) :: l.filter (fun p => ¬ p.1 = k)

/-- The `cleanup_details` dict built by `cleanup_session`. -/
structure CleanupDetails where
  sessionId : String
  celeryTaskRevoked : Bool
  processKilled : Bool
  redisCleaned : Bool
  durationSeconds : Nat
  durationMinutes : Nat
  errors : List String
  selfTerminated : Bool
  billingReconciled : Option Bool
  minutesBilled : Option Int
  pgid : Option Nat
deriving DecidableEq, Repr

/-- The initial `cleanup_details` dict. -/
def emptyCleanupDetails (sessionId : String) : CleanupDetails :=
  ⟨sessionId, false, false, false, 0, 0, [], false, none, none, none⟩

/-- The Redis deletion pass at the end of `cleanup_session` (`main.py`, step 3):
deletes `session:<id>`, `session:<id>:config`, `agent:<id>:pid`,
`agent:<id>:logs`, `agent:<id>:health`, the user mapping when `userId` is set,
and removes the id from both phase sets.  Note the source's `keys_to_delete`
list does not include `agent:<id>:logfile`, so that key is left untouched. -/
def redisCleanupPass (st : OrchState) (sessionId : String)
    (userId : Option String) : OrchState :=
  { st with
    sessions := st.sessions.filter (fun p => ¬ p.1 = sessionId)
    configs := st.configs.filter (fun p => ¬ p.1 = sessionId)
    agentPidKeys := st.agentPidKeys.filter (fun p => ¬ p.1 = sessionId)
    agentLogsKeys := st.agentLogsKeys.filter (fun k => ¬ k = sessionId)
    agentHealthKeys := st.agentHealthKeys.filter (fun k => ¬ k = sessionId)
    userKeys :=
      match userId with
      | some uid => st.userKeys.filter (fun p => ¬ p.1 = uid)
      | none => st.userKeys
    readySet := st.readySet.filter (fun x => ¬ x = sessionId)
    startingSet := st.startingSet.filter (fun x => ¬ x = sessionId) }

/-- `cleanup_session` (`main.py`).  Control flow, in source order: session hash
lookup (missing hash returns `errors=["Session not found"]`); duration
extraction; billing reconciliation when `durationMinutes > 0`; Celery task
revocation; agent process handling; Redis deletion pass.
`agentAliveAfterWait` is the outcome of the `os.kill(pid, 0)` probe after the
3-second self-termination wait: when the probe raises `ProcessLookupError`
(agent self-terminated) the source returns `cleanup_details` immediately,
before the Redis deletion pass.  Signals sent to a live process group do not
change any modelled state.  Error-message texts of nested failures are
abstracted to fixed summaries. -/
def cleanupSession (st : OrchState) (sessionId : String)
    (agentAliveAfterWait : Bool) : CleanupDetails × OrchState :=
  match kvLookup st.sessions sessionId with
  | none =>
    ({ emptyCleanupDetails sessionId with errors := ["Session not found"] }, st)
  | some sd =>
    let d1 := { emptyCleanupDetails sessionId with
      durationSeconds := sd.conversationDuration.getD 0
      durationMinutes := sd.conversationDurationMinutes.getD 0 }
    let afterBilling :=
      if 0 < d1.durationMinutes then
        let rec1 := reconcileSession st.credit sessionId (d1.durationMinutes : Int)
        if rec1.1.success then
          ({ d1 with
              billingReconciled := some true
              minutesBilled := some rec1.1.totalBilled }, rec1.2)
        else
          ({ d1 with
              billingReconciled := some false
              minutesBilled := some rec1.1.totalBilled
              errors := d1.errors ++ ["Billing reconciliation incomplete"] }, rec1.2)
      else (d1, st.credit)
    let d2 := afterBilling.1
    let st1 : OrchState := { st with credit := afterBilling.2 }
    let d3 :=
      if sd.celeryTaskId.isSome then { d2 with celeryTaskRevoked := true } else d2
    let pidOpt :=
      match sd.agentPid with
      | some p => some p
      | none => kvLookup st1.agentPidKeys sessionId
    match pidOpt with
    | some _ =>
      if agentAliveAfterWait = false then
        ({ d3 with processKilled := true, selfTerminated := true }, st1)
      else
        let d4 := { d3 with processKilled := true, pgid := sd.agentPgid }
        ({ d4 with redisCleaned := true }, redisCleanupPass st1 sessionId sd.userId)
    | none =>
      ({ d3 with redisCleaned := true }, redisCleanupPass st1 sessionId sd.userId)

/-- The `SessionEndResponse` model. -/
structure SessionEndResponse where
  success : Bool
  message : String
  details : CleanupDetails
deriving DecidableEq, Repr

/-- HTTP outcome of `end_session`. -/
inductive EndSessionOutcome
  | httpNotFound
  | ok (resp : SessionEndResponse)
deriving DecidableEq, Repr

/-- `success` field of an `end_session` outcome (`none` on HTTP 404). -/
def endSessionSuccessFlag : EndSessionOutcome → Option Bool
  | .httpNotFound => none
  | .ok r => some r.success

/-- `end_session` (`main.py`): 404 when `session:<id>` does not exist,
otherwise run `cleanup_session` and answer `success=True` whether or not the
cleanup reported errors. -/
def endSession (st : OrchState) (sessionId : String)
    (agentAliveAfterWait : Bool) : EndSessionOutcome × OrchState :=
  match kvLookup st.sessions sessionId with
  | none => (.httpNotFound, st)
  | some _ =>
    let run := cleanupSession st sessionId agentAliveAfterWait
    if run.1.errors.isEmpty then
      (.ok ⟨true, "Session " ++ sessionId ++ " ended and cleaned up", run.1⟩, run.2)
    else
      (.ok ⟨true, "Session " ++ sessionId ++ " ended with warnings", run.1⟩, run.2)

/-- The `HeartbeatResponse` model. -/
structure HeartbeatResponse where
  status : String
  message : Option String
  minuteBilled : Option Int
  creditsRemaining : Option Int
  alreadyBilled : Option Bool
  reason : Option String
deriving DecidableEq, Repr

/-- Outcome of the heartbeat endpoint; `terminationScheduled` records whether
`asyncio.create_task(terminate_session_insufficient_credits(..))` was spawned
(the spawned task itself runs later and is not executed here). -/
inductive HeartbeatOutcome
  | httpNotFound
  | resp (r : HeartbeatResponse) (terminationScheduled : Bool)
deriving DecidableEq, Repr

/-- The billing arm of `heartbeat`: call `deduct_minute` for `billingMinute`
and translate each `CreditDeductionResult` into the response envelope. -/
def heartbeatBill (st : OrchState) (sessionId : String) (billingMinute : Int) :
    HeartbeatOutcome × OrchState :=
  let run := deductMinute st.credit sessionId billingMinute false
  let st1 : OrchState := { st with credit := run.2 }
  match run.1.result with
  | .success =>
    (.resp ⟨"ok", some ("Minute " ++ toString billingMinute ++ " billed successfully"),
        some billingMinute, run.1.balanceAfter, some false, none⟩ false, st1)
  | .alreadyBilled =>
    (.resp ⟨"ok", some ("Minute " ++ toString billingMinute ++ " already billed"),
        some billingMinute, none, some true, none⟩ false, st1)
  | .insufficientCredits =>
    (.resp ⟨"stop",
        some ("Insufficient credits to continue (minute " ++ toString billingMinute ++ ")"),
        some billingMinute, none, none, some "insufficient_credits"⟩ true, st1)
  | _ =>
    (.resp ⟨"error", some "Billing failed", none, none, none, none⟩ false, st1)

/-- `heartbeat` (`main.py`): 404 when the session hash is missing; an error
response when `conversationStartTime` is absent; otherwise
`current_minute = (now - start) // 60` (Python floor division), an early `ok`
for minute 0, and the billing arm for every other minute. -/
def heartbeat (st : OrchState) (sessionId : String) (now : Nat) :
    HeartbeatOutcome × OrchState :=
  match kvLookup st.sessions sessionId with
  | none => (.httpNotFound, st)
  | some sd =>
    match sd.conversationStartTime with
    | none =>
      (.resp ⟨"error", some "No conversation start time found",
          none, none, none, none⟩ false, st)
    | some startTime =>
      let elapsedSeconds : Int := (now : Int) - (startTime : Int)
      let currentMinute : Int := Int.fdiv elapsedSeconds 60
      if currentMinute = 0 then
        (.resp ⟨"ok", some "Minute 0 already billed at session start",
            none, none, none, none⟩ false, st)
      else
        heartbeatBill st sessionId currentMinute

/-- The parsed LiveKit webhook payload: `event`, and the room name resolved as
`room.get('name') or room.get('id')`. -/
structure WebhookPayload where
  event : Option String
  roomName : Option String
deriving DecidableEq, Repr

/-- HTTP outcome of `livekit_webhook`. -/
inductive WebhookOutcome
  | http401
  | http400
  | ok (event : Option String)
deriving DecidableEq, Repr

/-- `verify_livekit_webhook`: constant-time comparison of the header value
against `hex(HMAC_SHA256(body, LIVEKIT_API_SECRET))`.  The digest computation
is external crypto; it is abstracted as the `expectedSignature` argument. -/
def verifyLivekitWebhook (expectedSignature signature : String) : Bool :=
  signature = expectedSignature

/-- Python `room_name.startswith('session_')`: character-list prefix test. -/
def strStartsWith (s p : String) : Bool :=
  p.data.isPrefixOf s.data

/-- Event handling of `livekit_webhook` after the signature gate: invalid JSON
(`body = none`) is HTTP 400; on `participant_left` / `room_finished` with a
room name starting with `session_`, `cleanup_session` runs with the room name
as the session id.  The middle component reports whether cleanup was
invoked. -/
def livekitWebhookBody (st : OrchState) (body : Option WebhookPayload)
    (agentAliveAfterWait : Bool) : WebhookOutcome × Bool × OrchState :=
  match body with
  | none => (.http400, false, st)
  | some payload =>
    if payload.event = some "participant_left" ∨ payload.event = some "room_finished" then
      match payload.roomName with
      | some roomName =>
        if strStartsWith roomName "session_" then
          let run := cleanupSession st roomName agentAliveAfterWait
          (.ok payload.event, true, run.2)
        else
          (.ok payload.event, false, st)
      | none => (.ok payload.event, false, st)
    else
      (.ok payload.event, false, st)

/-- `livekit_webhook` (`main.py`): when an `X-LiveKit-Signature` header is
present it must match the expected digest (mismatch is HTTP 401); when the
header is absent the signature check is skipped with only a warning log and
the event is processed normally. -/
def livekitWebhook (st : OrchState) (body : Option WebhookPayload)
    (signatureHeader : Option String) (expectedSignature : String)
    (agentAliveAfterWait : Bool) : WebhookOutcome × Bool × OrchState :=
  match signatureHeader with
  | some sig =>
    if verifyLivekitWebhook expectedSignature sig then
      livekitWebhookBody st body agentAliveAfterWait
    else
      (.http401, false, st)
  | none => livekitWebhookBody st body agentAliveAfterWait

/-- The allowed voice list (`VALID_VOICES` in `main.py`). -/
def VALID_VOICES : List String :=
  ["Ashley", "Craig", "Edward", "Olivia", "Wendy", "Priya"]

/-- The `SessionStartRequest` model. -/
structure SessionStartRequest where
  userName : String
  voiceId : Option String
  openingLine : Option String
  systemPrompt : Option String
  correlationToken : Option String
deriving DecidableEq, Repr

/-- The `SessionStartResponse` model.  It carries no voice-validation field:
`voice_validated` appears only in a log line of the source. -/
structure SessionStartResponse where
  success : Bool
  sessionId : String
  token : String
  serverUrl : String
  roomName : String
  message : String
  initialCreditDeducted : Option Bool
  creditsRemaining : Option Int
  minuteBilled : Option Int
deriving DecidableEq, Repr

/-- HTTP outcome of `start_session` (the Celery-unavailable 503 and
token-generation 500 branches are not modelled: the task id and token are
supplied as arguments). -/
inductive StartSessionOutcome
  | http404
  | http402
  | http500
  | ok (resp : SessionStartResponse)
deriving DecidableEq, Repr

/-- Python `x or default` on an optional string (`None` and `""` both fall
back). -/
def pyOrString (v : Option String) (dflt : String) : String :=
  match v with
  | some s => if s = "" then dflt else s
  | none => dflt

/-- Python `if x: d[k] = x` on an optional string: kept only when truthy. -/
def pyTruthyOpt (v : Option String) : Option String :=
  match v with
  | some s => if s = "" then none else some s
  | none => none

/-- `start_session` (`main.py`).  In source order: session id from the
correlation token (else the generated id); voice validation with silent
fallback to `"Ashley"`; student lookup (404); sufficiency check (402); minute-0
deduction (500 unless success); config hash stored with the *validated* voice;
Celery dispatch; session hash stored with the *raw* `request.voiceId or
'Ashley'`; success response. -/
def startSession (st : OrchState) (req : SessionStartRequest)
    (generatedId token taskId : String) (now : Nat) (serverUrl : String) :
    StartSessionOutcome × OrchState :=
  let sessionId := pyOrString req.correlationToken generatedId
  let requestedVoice := pyOrString req.voiceId "Ashley"
  let voiceId := if requestedVoice ∈ VALID_VOICES then requestedVoice else "Ashley"
  match getStudentIdFromSession st.credit sessionId with
  | none => (.http404, st)
  | some studentId =>
    if checkSufficientCredits st.credit studentId 1 = false then
      (.http402, st)
    else
      let billing := deductMinute st.credit sessionId 0 false
      if ¬ billing.1.result = .success then
        (.http500, { st with credit := billing.2 })
      else
        let st1 : OrchState := { st with credit := billing.2 }
        let config : SessionConfig :=
          ⟨voiceId, req.userName, pyTruthyOpt req.openingLine,
            pyTruthyOpt req.systemPrompt, now⟩
        let sessionRecord : SessionData :=
          { userName := req.userName
            voiceId := pyOrString req.voiceId "Ashley"
            openingLine := (req.openingLine.getD "")
            systemPrompt := (req.systemPrompt.getD "")
            celeryTaskId := some taskId
            status := "starting"
            startTime := now
            conversationStartTime := none
            conversationDuration := none
            conversationDurationMinutes := none
            agentPid := none
            agentPgid := none
            userId := none }
        let st2 : OrchState := { st1 with
          configs := kvSet st1.configs sessionId config
          sessions := kvSet st1.sessions sessionId sessionRecord }
        (.ok ⟨true, sessionId, token, serverUrl, sessionId,
            "Session created. Voice agent is being spawned.",
            some true, billing.1.balanceAfter, some 0⟩, st2)

/-- The `voiceId` field of the stored `session:<id>` hash. -/
def storedSessionVoice (st : OrchState) (sessionId : String) : Option String :=
  (kvLookup st.sessions sessionId).map (fun sd => sd.voiceId)

/-- The `voiceId` field of the stored `session:<id>:config` hash. -/
def storedConfigVoice (st : OrchState) (sessionId : String) : Option String :=
  (kvLookup st.configs sessionId).map (fun c => c.voiceId)

/-- Is a `start_session` outcome the HTTP 200 success response? -/
def isOkStart : StartSessionOutcome → Bool
  | .ok _ => true
  | _ => false

/-- The response inside a successful `start_session` outcome (dummy value on
error outcomes). -/
def okRespOf : StartSessionOutcome → SessionStartResponse
  | .ok r => r
  | _ => ⟨false, "", "", "", "", "", none, none, none⟩

/-! ## Concrete fixtures used by witnesses and counterexamples -/

/-- One student with 5 credits, one attempt `tok_abc -> stu1`, nothing billed. -/
def sampleCredit : CreditState :=
  ⟨[⟨"stu1", 5⟩], [⟨"tok_abc", "stu1", 0⟩], [], []⟩

/-- Same shape with a zero balance. -/
def brokeCredit : CreditState :=
  ⟨[⟨"stu1", 0⟩], [⟨"tok_abc", "stu1", 0⟩], [], []⟩

/-- A running session hash with an agent pid and no recorded durations. -/
def liveSession : SessionData :=
  ⟨"alice", "Ashley", "", "", some "task1", "active", 10,
    none, none, none, some 42, some 42, some "alice"⟩

/-- Orchestrator state holding `liveSession` under `session_a` together with
all four `agent:session_a:*` keys, the user mapping and the ready-set entry. -/
def liveOrch : OrchState :=
  ⟨sampleCredit, [("session_a", liveSession)], [],
    [("session_a", 42)], [("session_a", "/var/log/agents/session_a.log")],
    ["session_a"], ["session_a"], [("alice", "session_a")], ["session_a"], []⟩

/-- A session hash whose conversation started at epoch second 100. -/
def hbSession : SessionData :=
  ⟨"alice", "Ashley", "", "", none, "active", 10, some 100,
    none, none, none, none, none⟩

/-- Orchestrator state for the heartbeat boundary: the session id is the
correlation token `tok_abc`, which also has billing rows in `sampleCredit`. -/
def hbOrch : OrchState :=
  ⟨sampleCredit, [("tok_abc", hbSession)], [], [], [], [], [], [], [], []⟩

/-- A `start_session` request carrying a voice id outside `VALID_VOICES`. -/
def bogusVoiceReq : SessionStartRequest :=
  ⟨"alice", some "Bogus", none, none, some "tok_abc"⟩

/-- An orchestrator state with billing data but no stored sessions yet. -/
def freshOrch : OrchState :=
  ⟨sampleCredit, [], [], [], [], [], [], [], [], []⟩

/-- The concrete `start_session` run used by the voice-fallback claim. -/
def bogusVoiceRun : StartSessionOutcome × OrchState :=
  startSession freshOrch bogusVoiceReq "gen" "tkn" "task" 50 "url"

end SimsBuddy

namespace SimsBuddy

/-! ## Theorems: `deduct_minute` foundations -/

theorem deductMinute_cases (st : CreditState) (s : String) (n : Int) (b : Bool) :
    ((deductMinute st s n b).2 = st ∧ ¬ (deductMinute st s n b).1.result = .success) ∨
    (¬ idempotencyKey s n ∈ st.markers ∧ b = false ∧
      ∃ sid row, getStudentIdFromSession st s = some sid ∧
        st.students.find? (fun x => x.id = sid) = some row ∧
        ¬ row.creditBalance < 1 ∧
        deductMinute st s n b =
          (⟨.success, some (row.creditBalance - 1)⟩,
            deductSuccessState st s n sid (row.creditBalance - 1))) := by
  by_cases h1 : idempotencyKey s n ∈ st.markers
  · left; simp [deductMinute, h1]
  · cases hg : getStudentIdFromSession st s with
    | none => left; simp [deductMinute, h1, hg]
    | some sid =>
      cases hf : st.students.find? (fun x => x.id = sid) with
      | none => left; simp [deductMinute, h1, hg, hf]
      | some row =>
        by_cases h2 : row.creditBalance < 1
        · left; simp [deductMinute, h1, hg, hf, h2]
        · cases b with
          | true => left; simp [deductMinute, h1, hg, hf, h2]
          | false =>
            right
            exact ⟨h1, rfl, sid, row, rfl, hf, h2,
              by simp [deductMinute, h1, hg, hf, h2]⟩

theorem deductMinute_of_marker (st : CreditState) (s : String) (n : Int) (b : Bool)
    (h : idempotencyKey s n ∈ st.markers) :
    deductMinute st s n b = (⟨.alreadyBilled, none⟩, st) := by
  simp [deductMinute, h]

theorem deductMinute_alreadyBilled_iff (st : CreditState) (s : String) (n : Int) (b : Bool) :
    (deductMinute st s n b).1.result = .alreadyBilled ↔ idempotencyKey s n ∈ st.markers := by
  constructor
  · intro h
    by_contra hm
    rcases hg : getStudentIdFromSession st s with _ | sid
    · simp [deductMinute, hm, hg] at h
    · rcases hf : st.students.find? (fun x => x.id = sid) with _ | row
      · simp [deductMinute, hm, hg, hf] at h
      · by_cases h2 : row.creditBalance < 1
        · simp [deductMinute, hm, hg, hf, h2] at h
        · cases b <;> simp [deductMinute, hm, hg, hf, h2] at h
  · intro h; simp [deductMinute, h]

theorem stringAppendLeftCancel {a x y : String} (h : a ++ x = a ++ y) : x = y := by
  have h2 : (a ++ x).data = (a ++ y).data := congrArg String.data h
  simp only [String.data_append] at h2
  have h3 := List.append_cancel_left h2
  cases x; cases y
  exact congrArg String.mk (by simpa using h3)

theorem deductMinute_markers_mono (st : CreditState) (s' : String) (n' : Int) (b : Bool)
    (k : String) (hk : k ∈ st.markers) :
    k ∈ (deductMinute st s' n' b).2.markers := by
  rcases deductMinute_cases st s' n' b with ⟨heq, _⟩ | ⟨_, _, sid, row, _, _, _, heq⟩
  · rw [heq]; exact hk
  · rw [heq]
    simp only [deductSuccessState]
    exact List.mem_cons_of_mem _ hk

theorem deductMinute_success_marker (st : CreditState) (s : String) (n : Int) (b : Bool)
    (h : (deductMinute st s n b).1.result = .success) :
    idempotencyKey s n ∈ (deductMinute st s n b).2.markers := by
  rcases deductMinute_cases st s n b with ⟨_, hns⟩ | ⟨_, _, sid, row, _, _, _, heq⟩
  · exact absurd h hns
  · rw [heq]
    simp [deductSuccessState]

theorem txRowCount_deduct_of_marker (st : CreditState) (s : String) (n : Int)
    (s' : String) (n' : Int) (b : Bool)
    (h : idempotencyKey s n ∈ st.markers) :
    txRowCount (deductMinute st s' n' b).2 s n = txRowCount st s n := by
  rcases deductMinute_cases st s' n' b with ⟨heq, _⟩ | ⟨hm, _, sid, row, hg, hf, hb, heq⟩
  · rw [heq]
  · rw [heq]
    simp only [txRowCount, deductSuccessState, List.filter_append, List.length_append]
    have hno : txMatches s n ⟨sid, "DEBIT", 1, row.creditBalance - 1, "SIMULATION", s',
        minuteDescription n'⟩ = false := by
      by_contra hc
      simp only [Bool.not_eq_false, txMatches, decide_eq_true_eq] at hc
      obtain ⟨hs, hd⟩ := hc
      simp only [minuteDescription] at hd
      have htn : toString n' = toString n := stringAppendLeftCancel hd
      have hkey : idempotencyKey s' n' = idempotencyKey s n := by
        simp only [idempotencyKey, hs, htn]
      rw [hkey] at hm
      exact hm h
    simp [hno]

theorem txRowCount_deduct_success (st : CreditState) (s : String) (n : Int) (b : Bool)
    (h : (deductMinute st s n b).1.result = .success) :
    txRowCount (deductMinute st s n b).2 s n = txRowCount st s n + 1 := by
  rcases deductMinute_cases st s n b with ⟨_, hns⟩ | ⟨_, _, sid, row, hg, hf, hb, heq⟩
  · exact absurd h hns
  · rw [heq]
    simp only [txRowCount, deductSuccessState, List.filter_append, List.length_append]
    have hyes : txMatches s n ⟨sid, "DEBIT", 1, row.creditBalance - 1, "SIMULATION", s,
        minuteDescription n⟩ = true := by
      simp [txMatches]
    simp [hyes]

theorem runDeducts_marker_invariant (s : String) (n : Int) (calls : List (String × Int × Bool)) :
    ∀ (st : CreditState), idempotencyKey s n ∈ st.markers →
      idempotencyKey s n ∈ (runDeducts st calls).markers ∧
      txRowCount (runDeducts st calls) s n = txRowCount st s n := by
  induction calls with
  | nil => intro st h; exact ⟨h, rfl⟩
  | cons c rest ih =>
    intro st h
    have h1 := deductMinute_markers_mono st c.1 c.2.1 c.2.2 _ h
    have h2 := txRowCount_deduct_of_marker st s n c.1 c.2.1 c.2.2 h
    have h3 := ih _ h1
    refine ⟨by rw [runDeducts]; exact h3.1, ?_⟩
    rw [runDeducts, h3.2, h2]

/-- Claim C1: once a `deduct_minute` call for `(sessionId, minuteNumber)` has
succeeded (and hence set the idempotency marker), every later `deduct_minute`
call for the same pair - after any interleaved sequence of other calls -
returns `already_billed` with the state untouched, and the total number of
`credit_transactions` rows for that minute stays at exactly the one row the
success inserted. -/
theorem deductMinute_idempotent_per_minute
    (st : CreditState) (s : String) (n : Int) (b b2 : Bool)
    (calls : List (String × Int × Bool))
    (hsucc : (deductMinute st s n b).1.result = .success) :
    deductMinute (runDeducts (deductMinute st s n b).2 calls) s n b2
        = (⟨.alreadyBilled, none⟩, runDeducts (deductMinute st s n b).2 calls) ∧
    txRowCount (runDeducts (deductMinute st s n b).2 calls) s n = txRowCount st s n + 1 := by
  have hmark := deductMinute_success_marker st s n b hsucc
  have hrow := txRowCount_deduct_success st s n b hsucc
  have hrun := runDeducts_marker_invariant s n calls _ hmark
  exact ⟨deductMinute_of_marker _ s n b2 hrun.1, by rw [hrun.2, hrow]⟩

/-- Witness for C1 at a concrete state and a concrete duplicate sequence. -/
theorem deductMinute_idempotent_per_minute_witness :
    (deductMinute sampleCredit "tok_abc" 1 false).1.result = .success ∧
    deductMinute (runDeducts (deductMinute sampleCredit "tok_abc" 1 false).2
        [("tok_abc", 1, false), ("tok_abc", 2, false), ("tok_abc", 1, true)]) "tok_abc" 1 false
      = (⟨.alreadyBilled, none⟩, runDeducts (deductMinute sampleCredit "tok_abc" 1 false).2
        [("tok_abc", 1, false), ("tok_abc", 2, false), ("tok_abc", 1, true)]) ∧
    txRowCount (runDeducts (deductMinute sampleCredit "tok_abc" 1 false).2
        [("tok_abc", 1, false), ("tok_abc", 2, false), ("tok_abc", 1, true)]) "tok_abc" 1
      = txRowCount sampleCredit "tok_abc" 1 + 1 := by
  have h := deductMinute_idempotent_per_minute sampleCredit "tok_abc" 1 false false
    [("tok_abc", 1, false), ("tok_abc", 2, false), ("tok_abc", 1, true)] (by decide)
  exact ⟨by decide, h.1, h.2⟩

/-- Claim C5: whenever `deduct_minute` reports `insufficient_credits` or
`error`, the entire billing state - balance, `credit_transactions`,
`minutes_billed` and the idempotency marker - is left unchanged. -/
theorem deductMinute_failure_atomic (st : CreditState) (s : String) (n : Int) (b : Bool)
    (h : (deductMinute st s n b).1.result = .insufficientCredits ∨
         (deductMinute st s n b).1.result = .error) :
    (deductMinute st s n b).2 = st := by
  rcases deductMinute_cases st s n b with ⟨heq, _⟩ | ⟨_, _, sid, row, _, _, _, heq⟩
  · exact heq
  · rcases h with h | h <;> simp [heq] at h

/-- Witness for C5: both failure kinds at concrete states. -/
theorem deductMinute_failure_atomic_witness :
    ((deductMinute brokeCredit "tok_abc" 1 false).1.result = .insufficientCredits ∧
      (deductMinute brokeCredit "tok_abc" 1 false).2 = brokeCredit) ∧
    ((deductMinute sampleCredit "tok_abc" 1 true).1.result = .error ∧
      (deductMinute sampleCredit "tok_abc" 1 true).2 = sampleCredit) :=
  ⟨⟨by decide, deductMinute_failure_atomic brokeCredit "tok_abc" 1 false (Or.inl (by decide))⟩,
   ⟨by decide, deductMinute_failure_atomic sampleCredit "tok_abc" 1 true (Or.inr (by decide))⟩⟩

end SimsBuddy

namespace SimsBuddy

/-! ## Theorems: `minutes_billed` and reconciliation -/

theorem find?_attempts_update (l : List SimulationAttempt) (s tok : String) (n : Int) :
    (l.map (fun a => if a.correlationToken = tok then { a with minutesBilled := n } else a)).find?
        (fun a => a.correlationToken = s) =
      (l.find? (fun a => a.correlationToken = s)).map
        (fun a => if a.correlationToken = tok then { a with minutesBilled := n } else a) := by
  induction l with
  | nil => rfl
  | cons hd tl ih =>
    by_cases htok : hd.correlationToken = tok
    · by_cases hs : hd.correlationToken = s
      · have hts : tok = s := by rw [← htok, hs]
        simp [List.find?_cons, htok, hs, hts]
      · have hts : ¬ tok = s := by rw [← htok]; exact hs
        simp [List.find?_cons, htok, hs, hts, ih]
    · by_cases hs : hd.correlationToken = s
      · have hts : ¬ s = tok := by rw [← hs]; exact htok
        simp [List.find?_cons, htok, hs, hts]
      · simp [List.find?_cons, htok, hs, ih]

theorem find?_students_update (l : List Student) (sid target : String) (bal : Int) :
    (l.map (fun x => if x.id = target then { x with creditBalance := bal } else x)).find?
        (fun x => x.id = sid) =
      (l.find? (fun x => x.id = sid)).map
        (fun x => if x.id = target then { x with creditBalance := bal } else x) := by
  induction l with
  | nil => rfl
  | cons hd tl ih =>
    by_cases htok : hd.id = target
    · by_cases hs : hd.id = sid
      · have hts : target = sid := by rw [← htok, hs]
        simp [List.find?_cons, htok, hs, hts]
      · have hts : ¬ target = sid := by rw [← htok]; exact hs
        simp [List.find?_cons, htok, hs, hts, ih]
    · by_cases hs : hd.id = sid
      · have hts : ¬ sid = target := by rw [← hs]; exact htok
        simp [List.find?_cons, htok, hs, hts]
      · simp [List.find?_cons, htok, hs, ih]

theorem getStudentId_inv (st : CreditState) (s sid : String)
    (h : getStudentIdFromSession st s = some sid) :
    ∃ row, st.attempts.find? (fun a => a.correlationToken = s) = some row ∧
      row.studentId = sid ∧ ¬ sid = "" := by
  unfold getStudentIdFromSession at h
  cases hf : st.attempts.find? (fun a => a.correlationToken = s) with
  | none => rw [hf] at h; cases h
  | some row =>
    rw [hf] at h
    by_cases he : row.studentId = ""
    · simp [he] at h
    · simp only [he, if_false] at h
      refine ⟨row, rfl, Option.some.inj h, ?_⟩
      rw [← Option.some.inj h]; exact he

/-- Claim C2 (amended): a successful `deduct_minute` sets
`simulation_attempts.minutes_billed` to exactly the billed minute,
unconditionally (last-write-wins); every non-success result leaves the field
unchanged.  The field is therefore non-decreasing only when minutes are billed
in non-decreasing order. -/
theorem deductMinute_minutesBilled_lastWriteWins
    (st : CreditState) (s : String) (n : Int) (b : Bool) :
    ((deductMinute st s n b).1.result = .success →
      attemptMinutesBilled (deductMinute st s n b).2 s = some n) ∧
    (¬ (deductMinute st s n b).1.result = .success →
      attemptMinutesBilled (deductMinute st s n b).2 s = attemptMinutesBilled st s) := by
  rcases deductMinute_cases st s n b with ⟨heq, hns⟩ | ⟨_, _, sid, row, hg, hf, _, heq⟩
  · exact ⟨fun h => absurd h hns, fun _ => by rw [heq]⟩
  · constructor
    · intro _
      rw [heq]
      obtain ⟨arow, harow, _, _⟩ := getStudentId_inv st s sid hg
      have htok : arow.correlationToken = s := by
        have := List.find?_some harow
        simpa using this
      simp only [attemptMinutesBilled, deductSuccessState, find?_attempts_update, harow,
        Option.map_map, Option.map_some]
      simp [htok]
    · intro h
      rw [heq] at h
      simp at h

/-- Counterexample for C2 as stated: with balance 5 and nothing billed,
billing minute 3 then minute 1 both succeed, and `minutes_billed` drops from
3 to 1. -/
theorem minutesBilled_decreases_on_out_of_order_billing :
    (deductMinute sampleCredit "tok_abc" 3 false).1.result = .success ∧
    attemptMinutesBilled (deductMinute sampleCredit "tok_abc" 3 false).2 "tok_abc" = some 3 ∧
    (deductMinute (deductMinute sampleCredit "tok_abc" 3 false).2 "tok_abc" 1 false).1.result
      = .success ∧
    attemptMinutesBilled
        (deductMinute (deductMinute sampleCredit "tok_abc" 3 false).2 "tok_abc" 1 false).2
        "tok_abc" = some 1 := by
  decide

/-- Witness for the amended C2: a successful call writes the minute, a failing
call leaves the field alone. -/
theorem deductMinute_minutesBilled_lastWriteWins_witness :
    attemptMinutesBilled (deductMinute sampleCredit "tok_abc" 2 false).2 "tok_abc" = some 2 ∧
    attemptMinutesBilled (deductMinute brokeCredit "tok_abc" 2 false).2 "tok_abc"
      = attemptMinutesBilled brokeCredit "tok_abc" :=
  ⟨(deductMinute_minutesBilled_lastWriteWins sampleCredit "tok_abc" 2 false).1 (by decide),
   (deductMinute_minutesBilled_lastWriteWins brokeCredit "tok_abc" 2 false).2 (by decide)⟩

theorem billingInv_deduct (st : CreditState) (s sid s' : String) (n' : Int) (b : Bool)
    (h : billingInv st s sid) : billingInv (deductMinute st s' n' b).2 s sid := by
  rcases deductMinute_cases st s' n' b with ⟨heq, _⟩ | ⟨_, _, sid2, row2, hg, hf, hb, heq⟩
  · rw [heq]; exact h
  · rw [heq]
    obtain ⟨⟨row, hrow, hsid⟩, hne, hstud⟩ := h
    refine ⟨⟨if row.correlationToken = s' then { row with minutesBilled := n' } else row,
      ?_, ?_⟩, hne, ?_⟩
    · show (deductSuccessState st s' n' sid2 (row2.creditBalance - 1)).attempts.find? _ = _
      simp only [deductSuccessState]
      rw [find?_attempts_update, hrow]
      rfl
    · by_cases hc : row.correlationToken = s' <;> simp [hc, hsid]
    · show ((deductSuccessState st s' n' sid2 (row2.creditBalance - 1)).students.find?
        (fun x => x.id = sid)).isSome
      simp only [deductSuccessState]
      rw [find?_students_update]
      cases hfs : st.students.find? (fun x => x.id = sid) with
      | none => rw [hfs] at hstud; cases hstud
      | some _ => simp

theorem deductMinute_result_of_inv (st : CreditState) (s sid : String) (n : Int)
    (h : billingInv st s sid) :
    (deductMinute st s n false).1.result = .success ∨
    (deductMinute st s n false).1.result = .alreadyBilled ∨
    (deductMinute st s n false).1.result = .insufficientCredits := by
  obtain ⟨⟨row, hrow, hsid⟩, hne, hstud⟩ := h
  by_cases h1 : idempotencyKey s n ∈ st.markers
  · right; left; simp [deductMinute, h1]
  · have hg : getStudentIdFromSession st s = some sid := by
      unfold getStudentIdFromSession
      rw [hrow]
      simp [hsid, hne]
    obtain ⟨srow, hsrow⟩ := Option.isSome_iff_exists.mp hstud
    by_cases h2 : srow.creditBalance < 1
    · right; right; simp [deductMinute, h1, hg, hsrow, h2]
    · left; simp [deductMinute, h1, hg, hsrow, h2]

theorem reconcileLoop_markers_mono (s : String) (minutes : List Int) :
    ∀ (st : CreditState) (k : String), k ∈ st.markers →
      k ∈ (reconcileLoop s st minutes).2.2.markers := by
  induction minutes with
  | nil => intro st k h; exact h
  | cons m rest ih =>
    intro st k h
    have h1 := deductMinute_markers_mono st s m false k h
    simp only [reconcileLoop]
    split
    · exact ih _ _ h1
    · split
      · exact h1
      · exact ih _ _ h1

theorem reconcileLoop_dichotomy (s sid : String) (minutes : List Int) :
    ∀ (st : CreditState), billingInv st s sid →
      ((reconcileLoop s st minutes).2.1 = [] ∧
        ∀ m ∈ minutes, idempotencyKey s m ∈ (reconcileLoop s st minutes).2.2.markers) ∨
      (∃ pre m post, minutes = pre ++ m :: post ∧
        (reconcileLoop s st minutes).2.1 = [m] ∧
        ∀ j ∈ pre, idempotencyKey s j ∈ (reconcileLoop s st minutes).2.2.markers) := by
  induction minutes with
  | nil =>
    intro st _
    left
    exact ⟨rfl, by simp⟩
  | cons m rest ih =>
    intro st hinv
    have hinv' := billingInv_deduct st s sid s m false hinv
    by_cases hbill : (deductMinute st s m false).1.result = .success ∨
        (deductMinute st s m false).1.result = .alreadyBilled
    · have hkey : idempotencyKey s m ∈ (deductMinute st s m false).2.markers := by
        rcases hbill with h | h
        · exact deductMinute_success_marker st s m false h
        · exact deductMinute_markers_mono st s m false _
            ((deductMinute_alreadyBilled_iff st s m false).mp h)
      have hloopkey := reconcileLoop_markers_mono s rest (deductMinute st s m false).2 _ hkey
      have heq : reconcileLoop s st (m :: rest) =
          ((reconcileLoop s (deductMinute st s m false).2 rest).1 + 1,
           (reconcileLoop s (deductMinute st s m false).2 rest).2.1,
           (reconcileLoop s (deductMinute st s m false).2 rest).2.2) := by
        simp only [reconcileLoop]
        rw [if_pos hbill]
      rcases ih _ hinv' with ⟨hfail, hmark⟩ | ⟨pre, m', post, hsplit, hfail, hmarkpre⟩
      · left
        rw [heq]
        refine ⟨hfail, ?_⟩
        intro j hj
        rcases List.mem_cons.mp hj with rfl | hj'
        · exact hloopkey
        · exact hmark j hj'
      · right
        refine ⟨m :: pre, m', post, by rw [hsplit]; rfl, ?_, ?_⟩
        · rw [heq]; exact hfail
        · intro j hj
          rw [heq]
          rcases List.mem_cons.mp hj with rfl | hj'
          · exact hloopkey
          · exact hmarkpre j hj'
    · have hins : (deductMinute st s m false).1.result = .insufficientCredits := by
        rcases deductMinute_result_of_inv st s sid m hinv with h | h | h
        · exact absurd (Or.inl h) hbill
        · exact absurd (Or.inr h) hbill
        · exact h
      have heq : reconcileLoop s st (m :: rest) = (0, [m], (deductMinute st s m false).2) := by
        simp only [reconcileLoop]
        rw [if_neg hbill, if_pos hins]
      right
      refine ⟨[], m, rest, rfl, by rw [heq], ?_⟩
      intro j hj
      simp at hj

theorem pyRangeAux_mem : ∀ (k : Nat) (a m : Int), m ∈ pyRangeAux a k ↔ a ≤ m ∧ m < a + k := by
  intro k
  induction k with
  | zero =>
    intro a m
    simp only [pyRangeAux, List.not_mem_nil, false_iff]
    omega
  | succ k ih =>
    intro a m
    simp only [pyRangeAux, List.mem_cons, ih]
    omega

theorem pyRange_mem {a b m : Int} : m ∈ pyRange a b ↔ a ≤ m ∧ m < b := by
  unfold pyRange
  rw [pyRangeAux_mem]
  omega

theorem pyRange_nil {a b : Int} (h : b ≤ a) : pyRange a b = [] := by
  unfold pyRange
  have h0 : (b - a).toNat = 0 := by omega
  rw [h0]
  rfl

theorem pyRange_cons {a b : Int} (h : a < b) : pyRange a b = a :: pyRange (a + 1) b := by
  unfold pyRange
  have h1 : (b - a).toNat = (b - (a + 1)).toNat + 1 := by omega
  rw [h1]
  rfl

theorem pyRange_decomp : ∀ (pre : List Int) (a b m : Int) (post : List Int),
    pyRange a b = pre ++ m :: post → pre = pyRange a m := by
  intro pre
  induction pre with
  | nil =>
    intro a b m post h
    have hab : a < b := by
      by_contra hc
      rw [pyRange_nil (by omega)] at h
      simp at h
    rw [pyRange_cons hab] at h
    simp only [List.nil_append] at h
    injection h with h1 h2
    rw [← h1, pyRange_nil (le_refl a)]
  | cons p pre' ih =>
    intro a b m post h
    have hab : a < b := by
      by_contra hc
      rw [pyRange_nil (by omega)] at h
      simp at h
    rw [pyRange_cons hab] at h
    simp only [List.cons_append] at h
    injection h with h1 h2
    have hm : m ∈ pyRange (a + 1) b := by rw [h2]; simp
    have hbnd := pyRange_mem.mp hm
    have hpre := ih (a + 1) b m post h2
    rw [pyRange_cons (show a < m by omega), ← h1, hpre]

/-- Claim C3 (amended): when the attempt row and its student row exist,
`reconcile_session(s, T)` either bills every minute in
`[lastBilled + 1, T]` (empty `failed_minutes`, every such minute's marker set),
or stops at the first insufficient minute `m` with `failed_minutes = [m]` - a
single element, not the whole remaining tail - every earlier minute billed. -/
theorem reconcileSession_spec (st : CreditState) (s : String) (T : Int)
    (row : SimulationAttempt)
    (hrow : st.attempts.find? (fun a => a.correlationToken = s) = some row)
    (hne : ¬ row.studentId = "")
    (hstud : (st.students.find? (fun x => x.id = row.studentId)).isSome) :
    ((reconcileSession st s T).1.failedMinutes = [] ∧
      ∀ m : Int, row.minutesBilled + 1 ≤ m → m ≤ T →
        idempotencyKey s m ∈ (reconcileSession st s T).2.markers) ∨
    (∃ m : Int, row.minutesBilled + 1 ≤ m ∧ m ≤ T ∧
      (reconcileSession st s T).1.failedMinutes = [m] ∧
      ∀ j : Int, row.minutesBilled + 1 ≤ j → j < m →
        idempotencyKey s j ∈ (reconcileSession st s T).2.markers) := by
  have hinv : billingInv st s row.studentId := ⟨⟨row, hrow, rfl⟩, hne, hstud⟩
  have hd := reconcileLoop_dichotomy s row.studentId
    (pyRange (row.minutesBilled + 1) (T + 1)) st hinv
  have hsess : reconcileSession st s T =
      (⟨(reconcileLoop s st (pyRange (row.minutesBilled + 1) (T + 1))).2.1.isEmpty, true,
        (reconcileLoop s st (pyRange (row.minutesBilled + 1) (T + 1))).1,
        row.minutesBilled + ((reconcileLoop s st (pyRange (row.minutesBilled + 1) (T + 1))).1 : Int),
        (reconcileLoop s st (pyRange (row.minutesBilled + 1) (T + 1))).2.1⟩,
       (reconcileLoop s st (pyRange (row.minutesBilled + 1) (T + 1))).2.2) := by
    unfold reconcileSession
    rw [hrow]
  rcases hd with ⟨hfail, hmark⟩ | ⟨pre, m, post, hsplit, hfail, hmarkpre⟩
  · left
    rw [hsess]
    refine ⟨hfail, ?_⟩
    intro m h1 h2
    exact hmark m (pyRange_mem.mpr ⟨h1, by omega⟩)
  · right
    have hm : m ∈ pyRange (row.minutesBilled + 1) (T + 1) := by rw [hsplit]; simp
    have hb := pyRange_mem.mp hm
    rw [hsess]
    refine ⟨m, hb.1, by omega, hfail, ?_⟩
    intro j h1 hlt
    have hpre : pre = pyRange (row.minutesBilled + 1) m :=
      pyRange_decomp pre (row.minutesBilled + 1) (T + 1) m post hsplit
    exact hmarkpre j (by rw [hpre]; exact pyRange_mem.mpr ⟨h1, hlt⟩)

/-- Counterexample for C3 as stated: balance 0, `T = 2`: the run stops at
minute 1 with `failed_minutes = [1]`; the remaining minute 2 of the tail
`[1, 2]` is not recorded. -/
theorem reconcile_tail_not_recorded :
    (reconcileSession brokeCredit "tok_abc" 2).1.failedMinutes = [1] ∧
    ¬ (2 : Int) ∈ (reconcileSession brokeCredit "tok_abc" 2).1.failedMinutes := by
  decide

/-- Witness for the amended C3 at a concrete state: with enough balance both
markers of the reconciled range end up set. -/
theorem reconcileSession_spec_witness :
    idempotencyKey "tok_abc" 1 ∈ (reconcileSession sampleCredit "tok_abc" 2).2.markers ∧
    idempotencyKey "tok_abc" 2 ∈ (reconcileSession sampleCredit "tok_abc" 2).2.markers := by
  have h := reconcileSession_spec sampleCredit "tok_abc" 2 ⟨"tok_abc", "stu1", 0⟩
    (by decide) (by decide) (by decide)
  rcases h with ⟨hfail, hmark⟩ | ⟨m, hm1, hm2, hfail, _⟩
  · exact ⟨hmark 1 (by decide) (by decide), hmark 2 (by decide) (by decide)⟩
  · have hempty : (reconcileSession sampleCredit "tok_abc" 2).1.failedMinutes = [] := by decide
    rw [hempty] at hfail
    simp at hfail

end SimsBuddy

namespace SimsBuddy

/-! ## Theorems: orchestrator endpoints -/

/-- Claim C4 (code bug): the cleanup routine is not final.  At a concrete
session whose agent self-terminates during the 3-second wait the routine
returns early (`self_terminated=True`, no errors) without deleting any Redis
key: the session hash and `agent:<id>:pid` survive and a second cleanup does
not answer `["Session not found"]`.  Moreover even on the SIGTERM path the
deletion pass never removes `agent:<id>:logfile`. -/
theorem cleanupSession_not_final :
    ((cleanupSession liveOrch "session_a" false).1.selfTerminated = true ∧
     (cleanupSession liveOrch "session_a" false).1.errors = [] ∧
     (kvLookup (cleanupSession liveOrch "session_a" false).2.sessions "session_a").isSome
        = true ∧
     (kvLookup (cleanupSession liveOrch "session_a" false).2.agentPidKeys "session_a").isSome
        = true ∧
     ¬ (cleanupSession (cleanupSession liveOrch "session_a" false).2 "session_a" false).1.errors
        = ["Session not found"]) ∧
    ((kvLookup (cleanupSession liveOrch "session_a" true).2.agentLogfileKeys "session_a").isSome
        = true ∧
     (cleanupSession (cleanupSession liveOrch "session_a" true).2 "session_a" true).1.errors
        = ["Session not found"]) := by
  decide

theorem fdivSixtyNatCast (k : Nat) : Int.fdiv (k : Int) 60 = ((k / 60 : Nat) : Int) := by
  cases k with
  | zero => rfl
  | succ k => rfl

theorem heartbeatBill_credit (st : OrchState) (s : String) (m : Int) :
    (heartbeatBill st s m).2.credit = (deductMinute st.credit s m false).2 := by
  simp only [heartbeatBill]
  split <;> rfl

/-- Claim C6: with `conversationStartTime = t` set, a heartbeat with
`now - t < 60` answers `ok` ("minute 0") with the whole state - in particular
the billing state - untouched, and a heartbeat with `now - t` in `[60, 120)`
runs the billing arm for minute 1 exactly (so the resulting billing state is
that of `deduct_minute(s, 1)`). -/
theorem heartbeat_billing_boundary (st : OrchState) (s : String) (sd : SessionData) (t : Nat)
    (hs : kvLookup st.sessions s = some sd)
    (ht : sd.conversationStartTime = some t) :
    (∀ now : Nat, t ≤ now → now - t < 60 →
      heartbeat st s now =
        (.resp ⟨"ok", some "Minute 0 already billed at session start",
          none, none, none, none⟩ false, st)) ∧
    (∀ now : Nat, t + 60 ≤ now → now < t + 120 →
      heartbeat st s now = heartbeatBill st s 1 ∧
      (heartbeat st s now).2.credit = (deductMinute st.credit s 1 false).2) := by
  constructor
  · intro now h1 h2
    simp only [heartbeat, hs, ht]
    have he : (now : Int) - (t : Int) = ((now - t : Nat) : Int) := by omega
    have h0 : (now - t) / 60 = 0 := Nat.div_eq_of_lt (by omega)
    rw [he, fdivSixtyNatCast, h0]
    simp
  · intro now h1 h2
    have heq : heartbeat st s now = heartbeatBill st s 1 := by
      simp only [heartbeat, hs, ht]
      have he : (now : Int) - (t : Int) = ((now - t : Nat) : Int) := by omega
      have h0 : (now - t) / 60 = 1 := by omega
      rw [he, fdivSixtyNatCast, h0]
      norm_num
    exact ⟨heq, by rw [heq]; exact heartbeatBill_credit st s 1⟩

/-- Witness for C6 at elapsed 59 s and 61 s. -/
theorem heartbeat_billing_boundary_witness :
    heartbeat hbOrch "tok_abc" 159 =
      (.resp ⟨"ok", some "Minute 0 already billed at session start",
        none, none, none, none⟩ false, hbOrch) ∧
    heartbeat hbOrch "tok_abc" 161 = heartbeatBill hbOrch "tok_abc" 1 := by
  have h := heartbeat_billing_boundary hbOrch "tok_abc" hbSession 100 (by decide) (by decide)
  exact ⟨h.1 159 (by decide) (by decide), (h.2 161 (by decide) (by decide)).1⟩

/-- Counterexample for C7 as stated: once cleanup has removed the session
record, a second `end_session` answers HTTP 404 rather than success. -/
theorem endSession_second_call_404 :
    endSessionSuccessFlag (endSession liveOrch "session_a" true).1 = some true ∧
    (endSession (endSession liveOrch "session_a" true).2 "session_a" true).1 = .httpNotFound := by
  decide

/-- Claim C7 (amended): `end_session` answers HTTP 200 with `success=True`
whenever the session record exists, reporting partial-cleanup problems only in
the `errors[]` detail; when the record is missing (for instance after a prior
cleanup removed it) it answers HTTP 404. -/
theorem endSession_success_iff_record_exists (st : OrchState) (s : String) (alive : Bool) :
    (kvLookup st.sessions s = none → (endSession st s alive).1 = .httpNotFound) ∧
    (∀ sd, kvLookup st.sessions s = some sd →
      endSessionSuccessFlag (endSession st s alive).1 = some true) := by
  constructor
  · intro h
    simp [endSession, h]
  · intro sd h
    simp only [endSession, h]
    split <;> rfl

/-- Witness for the amended C7 at concrete states. -/
theorem endSession_success_iff_record_exists_witness :
    (endSession freshOrch "session_a" true).1 = .httpNotFound ∧
    endSessionSuccessFlag (endSession liveOrch "session_a" true).1 = some true :=
  ⟨(endSession_success_iff_record_exists freshOrch "session_a" true).1 rfl,
   (endSession_success_iff_record_exists liveOrch "session_a" true).2 liveSession (by decide)⟩

/-- Counterexample for C8 as stated: a `participant_left` webhook whose room
name equals a known session id (`tok_abc`, stored in Redis) but does not start
with `session_` triggers no cleanup and leaves the state untouched. -/
theorem webhook_ignores_known_session_room :
    (kvLookup hbOrch.sessions "tok_abc").isSome = true ∧
    (livekitWebhook hbOrch (some ⟨some "participant_left", some "tok_abc"⟩) none "sig" true).2.1
      = false ∧
    (livekitWebhook hbOrch (some ⟨some "participant_left", some "tok_abc"⟩) none "sig" true).2.2
      = hbOrch := by
  decide

/-- Claim C8 (amended): past the signature gate, cleanup is invoked exactly
when the event is `participant_left` or `room_finished` and the room name
starts with `session_`; room names that merely match a known session id are
ignored, and when no cleanup is invoked the state is unchanged. -/
theorem livekitWebhook_cleanup_condition (st : OrchState) (p : WebhookPayload)
    (sig : Option String) (expected : String) (alive : Bool)
    (hsig : sig = none ∨ sig = some expected) :
    ((livekitWebhook st (some p) sig expected alive).2.1 = true ↔
      ((p.event = some "participant_left" ∨ p.event = some "room_finished") ∧
        p.roomName.map (fun rn => strStartsWith rn "session_") = some true)) ∧
    ((livekitWebhook st (some p) sig expected alive).2.1 = false →
      (livekitWebhook st (some p) sig expected alive).2.2 = st) := by
  have hred : livekitWebhook st (some p) sig expected alive =
      livekitWebhookBody st (some p) alive := by
    rcases hsig with rfl | rfl
    · rfl
    · simp [livekitWebhook, verifyLivekitWebhook]
  rw [hred]
  by_cases hev : p.event = some "participant_left" ∨ p.event = some "room_finished"
  · cases hrn : p.roomName with
    | none => simp [livekitWebhookBody, hev, hrn]
    | some rn =>
      by_cases hsw : strStartsWith rn "session_"
      · simp [livekitWebhookBody, hev, hrn, hsw]
      · simp [livekitWebhookBody, hev, hrn, hsw]
  · simp [livekitWebhookBody, hev]

/-- Witness for the amended C8: a `session_`-prefixed room does trigger cleanup. -/
theorem livekitWebhook_cleanup_condition_witness :
    (livekitWebhook hbOrch (some ⟨some "room_finished", some "session_x"⟩) none "sig" true).2.1
      = true :=
  (livekitWebhook_cleanup_condition hbOrch ⟨some "room_finished", some "session_x"⟩ none "sig"
    true (Or.inl rfl)).1.mpr (by decide)

/-- Counterexample for C9 as stated: requesting voice `Bogus` succeeds, the
stored config voice is normalized to `Ashley`, but the stored `session:<id>`
hash keeps the raw `Bogus` - the voice is not `Ashley` everywhere it is
recorded (and `SessionStartResponse` carries no `voice_validated` field at
all). -/
theorem startSession_session_record_keeps_raw_voice :
    ¬ "Bogus" ∈ VALID_VOICES ∧
    isOkStart bogusVoiceRun.1 = true ∧
    storedConfigVoice bogusVoiceRun.2 "tok_abc" = some "Ashley" ∧
    storedSessionVoice bogusVoiceRun.2 "tok_abc" = some "Bogus" := by
  decide

theorem kvLookup_kvSet_self {α : Type} (l : List (String × α)) (k : String) (v : α) :
    kvLookup (kvSet l k v) k = some v := by
  simp [kvLookup, kvSet, List.find?_cons]

/-- Claim C9 (amended): for an invalid requested voice on a successful
`start_session`, the stored `session:<id>:config` hash (which the spawner
reads, so this is the effective voice) holds `Ashley`, while the stored
`session:<id>` hash keeps the raw requested voice; the validation outcome is
only logged, `SessionStartResponse` has no `voice_validated` field. -/
theorem startSession_voice_fallback (st : OrchState) (req : SessionStartRequest)
    (generatedId token taskId : String) (now : Nat) (serverUrl : String)
    (hv : ¬ pyOrString req.voiceId "Ashley" ∈ VALID_VOICES)
    (hok : isOkStart (startSession st req generatedId token taskId now serverUrl).1 = true) :
    storedConfigVoice (startSession st req generatedId token taskId now serverUrl).2
        (pyOrString req.correlationToken generatedId) = some "Ashley" ∧
    storedSessionVoice (startSession st req generatedId token taskId now serverUrl).2
        (pyOrString req.correlationToken generatedId)
      = some (pyOrString req.voiceId "Ashley") := by
  cases hg : getStudentIdFromSession st.credit (pyOrString req.correlationToken generatedId) with
  | none => simp [startSession, hg, isOkStart] at hok
  | some sid =>
    by_cases hc : checkSufficientCredits st.credit sid 1 = false
    · simp [startSession, hg, hc, isOkStart] at hok
    · by_cases hb : (deductMinute st.credit (pyOrString req.correlationToken generatedId)
          0 false).1.result = .success
      · simp only [startSession, hg, hc, hb, if_false, if_true, not_true, if_neg, ite_false,
          ite_true, storedConfigVoice, storedSessionVoice]
        simp [hv, kvLookup_kvSet_self, kvLookup, kvSet]
      · simp [startSession, hg, hc, hb, isOkStart] at hok
  
/-- Witness for the amended C9 at the concrete bogus-voice run. -/
theorem startSession_voice_fallback_witness :
    storedConfigVoice bogusVoiceRun.2 (pyOrString bogusVoiceReq.correlationToken "gen")
      = some "Ashley" ∧
    storedSessionVoice bogusVoiceRun.2 (pyOrString bogusVoiceReq.correlationToken "gen")
      = some (pyOrString bogusVoiceReq.voiceId "Ashley") :=
  startSession_voice_fallback freshOrch bogusVoiceReq "gen" "tkn" "task" 50 "url"
    (by decide) (by decide)

/-- Claim C10: a webhook with no `X-LiveKit-Signature` header skips
verification entirely and is processed as if authentic (never a 401); a 401 is
produced exactly when a header is present and differs from the expected
digest, and a matching header proceeds like the header-less path. -/
theorem livekitWebhook_signature_policy (st : OrchState) (body : Option WebhookPayload)
    (expected : String) (alive : Bool) :
    (livekitWebhook st body none expected alive = livekitWebhookBody st body alive) ∧
    (¬ (livekitWebhook st body none expected alive).1 = .http401) ∧
    (∀ sig : String, ¬ sig = expected →
      livekitWebhook st body (some sig) expected alive = (.http401, false, st)) ∧
    (livekitWebhook st body (some expected) expected alive = livekitWebhookBody st body alive) := by
  have hbody : ¬ (livekitWebhookBody st body alive).1 = .http401 := by
    unfold livekitWebhookBody
    cases body with
    | none => simp
    | some p =>
      by_cases hev : p.event = some "participant_left" ∨ p.event = some "room_finished"
      · cases hrn : p.roomName with
        | none => simp [hev, hrn]
        | some rn => by_cases hsw : strStartsWith rn "session_" <;> simp [hev, hrn, hsw]
      · simp [hev]
  refine ⟨rfl, hbody, ?_, ?_⟩
  · intro sig hne
    simp [livekitWebhook, verifyLivekitWebhook, hne]
  · simp [livekitWebhook, verifyLivekitWebhook]

/-- Witness for C10: a concrete mismatching header draws a 401. -/
theorem livekitWebhook_signature_policy_witness :
    livekitWebhook hbOrch (some ⟨some "room_finished", some "session_x"⟩) (some "bad") "sig" true
      = (.http401, false, hbOrch) :=
  (livekitWebhook_signature_policy hbOrch (some ⟨some "room_finished", some "session_x"⟩)
    "sig" true).2.2.1 "bad" (by decide)

end SimsBuddy
